import Mathlib

/-!
# HealthyHabits — verification of the recommendation/profile logic

Shallow embedding of `healthyhabits_app.py`:

* the recommendation engine `generate_recommendations` (a pure rule table
  over a condition list and a goal string),
* the translation fallback `translate_text`,
* the profile store (`save_profile`, `fetch_profiles`, and the UI's
  lookup-by-id and save-button handler).

Python strings are modelled as Lean `String`s, except the comma-joined
conditions column, which is modelled at the character level (`List Char`)
so that the join/split round trip can be reasoned about directly.

Note on the bullet delimiter: the Python source writes `"\\n- "`, i.e. a
literal backslash followed by `n- ` (four characters), not a newline; the
embedding reproduces those exact four characters, and `.strip()` is
modelled by the character-level `pyStrip`.
-/

set_option linter.unusedVariables false

namespace HealthyHabits

/-! ## Recommendation engine: the fixed rule-table lines (source lines 63-91) -/

def base_diet : String :=
  "Include more whole foods: vegetables, fruits, lean proteins, and whole grains."

def base_exercise : String :=
  "Aim for at least 30 minutes of moderate activity daily (walking, yoga, or cycling)."

def base_sleep : String :=
  "Keep consistent sleep schedule. Avoid screens 1 hour before bed."

def base_general : String :=
  "Stay hydrated and avoid excessive sugary drinks."

def thyroid_diet : String :=
  "For thyroid issues: include selenium-rich foods (nuts, seeds) and iodine sources in moderation; avoid highly processed foods and excessive soy."

def thyroid_exercise : String :=
  "Include strength training twice a week to support metabolism."

def apnea_diet : String :=
  "For sleep apnea: avoid heavy meals and caffeine close to bedtime; maintain healthy weight."

def apnea_exercise : String :=
  "Practice breathing exercises and consider positional therapy (sleeping on side)."

def apnea_sleep : String :=
  "Consult a clinician for breathing-related sleep disorders; avoid alcohol near bedtime."

def heart_diet : String :=
  "Heart-healthy diet: reduce saturated fats, increase fiber, include omega-3 sources like fish or flaxseed."

def heart_exercise : String :=
  "Prefer low-impact cardio like brisk walking; check with a doctor before intense exercise."

def heart_general : String :=
  "Monitor blood pressure and cholesterol regularly."

def weightloss_diet : String :=
  "Control portion sizes, prefer protein-rich breakfasts, and avoid late-night snacking."

def weightloss_exercise : String :=
  "Incorporate interval walks or brisk walks to increase calorie burn."

def bettersleep_sleep : String :=
  "Create a bedtime routine: warm shower, light stretching, and a calm environment."

def bettersleep_diet : String :=
  "Avoid heavy, spicy dinners and caffeine after late afternoon."

def energy_diet : String :=
  "Include small, frequent balanced meals; add nuts and fruits for healthy snacks."

def energy_exercise : String :=
  "Short morning walks and light stretching improve daytime alertness."

/-! ## The per-category line lists built by `generate_recommendations`.

Each Python `if` appends fixed lines to the category lists; the embedding
renders each append site as a conditional singleton segment, concatenated
in the source's order: baseline, then Thyroid, Sleep Apnea,
Heart Risk/Cardiac History, then the goal branch. -/

def diet_recs (conditions : List String) (goal : String) : List String :=
  [base_diet]
    ++ (if conditions.contains "Thyroid" then [thyroid_diet] else [])
    ++ (if conditions.contains "Sleep Apnea" then [apnea_diet] else [])
    ++ (if conditions.contains "Heart Risk" || conditions.contains "Cardiac History"
        then [heart_diet] else [])
    ++ (if goal = "Weight Loss" then [weightloss_diet]
        else if goal = "Better Sleep" then [bettersleep_diet]
        else if goal = "Energy Boost" then [energy_diet]
        else [])

def exercise_recs (conditions : List String) (goal : String) : List String :=
  [base_exercise]
    ++ (if conditions.contains "Thyroid" then [thyroid_exercise] else [])
    ++ (if conditions.contains "Sleep Apnea" then [apnea_exercise] else [])
    ++ (if conditions.contains "Heart Risk" || conditions.contains "Cardiac History"
        then [heart_exercise] else [])
    ++ (if goal = "Weight Loss" then [weightloss_exercise]
        else if goal = "Better Sleep" then []
        else if goal = "Energy Boost" then [energy_exercise]
        else [])

def sleep_recs (conditions : List String) (goal : String) : List String :=
  [base_sleep]
    ++ (if conditions.contains "Sleep Apnea" then [apnea_sleep] else [])
    ++ (if goal = "Weight Loss" then []
        else if goal = "Better Sleep" then [bettersleep_sleep]
        else [])

def general_recs (conditions : List String) (goal : String) : List String :=
  [base_general]
    ++ (if conditions.contains "Heart Risk" || conditions.contains "Cardiac History"
        then [heart_general] else [])

/-- The join delimiter from the source: the Python literal is `"\\n- "`,
four characters (backslash, `n`, dash, space). -/
def bullet_sep : String := "\\n- "

/-- Python `str.strip()`: drop leading and trailing whitespace characters.
Modelled at the character level so it reduces in the kernel. -/
def pyStrip (s : String) : String :=
  String.mk
    (((s.data.dropWhile Char.isWhitespace).reverse.dropWhile
        Char.isWhitespace).reverse)

/-- `"sep".join([""] + recs)` followed by `.strip()` (source lines 94-97,
100-103). -/
def join_block (recs : List String) : String :=
  pyStrip (String.intercalate bullet_sep ("" :: recs))

structure RecommendationSet where
  diet : String
  exercise : String
  sleep : String
  general : String
deriving DecidableEq, Repr

/-- `generate_recommendations(conditions, goal)` (source lines 57-104). -/
def generate_recommendations (conditions : List String) (goal : String) :
    RecommendationSet :=
  { diet := join_block (diet_recs conditions goal)
    exercise := join_block (exercise_recs conditions goal)
    sleep := join_block (sleep_recs conditions goal)
    general := join_block (general_recs conditions goal) }

/-! ## Boolean-flag reformulation.

The engine reads the condition list only through membership of the four
monitored tags; these definitions make that explicit.  Each
`*_recs_eq_flags` lemma below is definitional (`rfl`). -/

def diet_recs_flags (thy ap heart : Bool) (goal : String) : List String :=
  [base_diet]
    ++ (if thy then [thyroid_diet] else [])
    ++ (if ap then [apnea_diet] else [])
    ++ (if heart then [heart_diet] else [])
    ++ (if goal = "Weight Loss" then [weightloss_diet]
        else if goal = "Better Sleep" then [bettersleep_diet]
        else if goal = "Energy Boost" then [energy_diet]
        else [])

def exercise_recs_flags (thy ap heart : Bool) (goal : String) : List String :=
  [base_exercise]
    ++ (if thy then [thyroid_exercise] else [])
    ++ (if ap then [apnea_exercise] else [])
    ++ (if heart then [heart_exercise] else [])
    ++ (if goal = "Weight Loss" then [weightloss_exercise]
        else if goal = "Better Sleep" then []
        else if goal = "Energy Boost" then [energy_exercise]
        else [])

def sleep_recs_flags (ap : Bool) (goal : String) : List String :=
  [base_sleep]
    ++ (if ap then [apnea_sleep] else [])
    ++ (if goal = "Weight Loss" then []
        else if goal = "Better Sleep" then [bettersleep_sleep]
        else [])

def general_recs_flags (heart : Bool) : List String :=
  [base_general] ++ (if heart then [heart_general] else [])

/-! ## Translation layer (source lines 8-20).

The translator capability is `none` when the `googletrans` import failed,
and `some tr` otherwise, where `tr` returns `none` when the external call
raises. -/

def translation_missing_note : String :=
  " (Hindi translation not available - please install googletrans)"

def translation_failed_note : String := " (translation unavailable)"

/-- `translate_text(text, dest)`: the outer `try/except` around the import
selects which implementation runs; the inner `try/except` catches a failing
call. -/
def translate_text (translator : Option (String → Option String))
    (text : String) : String :=
  match translator with
  | some tr =>
    match tr text with
    | some result => result
    | none => text ++ translation_failed_note
  | none => text ++ translation_missing_note

/-- The Hindi display branch of the UI (source lines 146-154): each of the
four category blocks is passed through `translate_text`. -/
def hindi_view (translator : Option (String → Option String))
    (recs : RecommendationSet) : RecommendationSet :=
  { diet := translate_text translator recs.diet
    exercise := translate_text translator recs.exercise
    sleep := translate_text translator recs.sleep
    general := translate_text translator recs.general }

/-! ## Profile store (source lines 25-54) and the UI handlers that use it.

The `users` table is a list of rows plus the next `AUTOINCREMENT` id; the
`created_at` value produced by `datetime.now().isoformat()` is threaded in
as the `now` argument.  The comma-joined `conditions` column is modelled
at the character level. -/

structure Profile where
  id : Nat
  name : String
  age : Nat
  gender : String
  conditions : List Char
  goal : String
  created_at : String
deriving DecidableEq, Repr

structure Store where
  nextId : Nat
  rows : List Profile
deriving DecidableEq, Repr

/-- A fresh database: SQLite assigns ids starting from 1. -/
def init_db : Store := { nextId := 1, rows := [] }

/-- Python `"sep".join(xs)` over character lists. -/
def pyJoin (sep : List Char) : List (List Char) → List Char
  | [] => []
  | [x] => x
  | x :: xs => x ++ sep ++ pyJoin sep xs

/-- Python `s.split(sep)` for a one-character separator: `pySplit sep ""`
is `[""]`, and every occurrence of `sep` opens a new chunk. -/
def pySplit (sep : Char) : List Char → List (List Char)
  | [] => [[]]
  | c :: cs =>
    if c = sep then [] :: pySplit sep cs
    else
      match pySplit sep cs with
      | [] => [[c]]
      | r :: rs => (c :: r) :: rs

/-- The View-Profiles read path (source line 171):
`row['conditions'].split(",") if row['conditions'] else []`. -/
def read_conditions (stored : List Char) : List (List Char) :=
  if stored = [] then [] else pySplit ',' stored

/-- The row that one `INSERT` writes: the next auto-increment id, the
comma-joined conditions, and the server-assigned timestamp. -/
def new_row (db : Store) (name : String) (age : Nat) (gender : String)
    (conditions : List (List Char)) (goal now : String) : Profile :=
  { id := db.nextId, name := name, age := age, gender := gender
    conditions := pyJoin [','] conditions, goal := goal
    created_at := now }

/-- `save_profile(name, age, gender, conditions, goal)` (source lines
42-48): one `INSERT` with the comma-joined conditions and the timestamp. -/
def save_profile (db : Store) (name : String) (age : Nat) (gender : String)
    (conditions : List (List Char)) (goal now : String) : Store :=
  { nextId := db.nextId + 1
    rows := new_row db name age gender conditions goal now :: db.rows }

/-- `fetch_profiles()` (source lines 50-54): `SELECT * FROM users ORDER BY
id DESC`. -/
def fetch_profiles (db : Store) : List Profile :=
  db.rows.mergeSort (fun a b => decide (b.id ≤ a.id))

/-- The View-Profiles lookup (source line 167): `df[df['id']==selected_id]`
over the fetched table, taking the first matching row. -/
def find_by_id (db : Store) (i : Nat) : Option Profile :=
  (fetch_profiles db).find? (fun p => p.id == i)

inductive SubmitOutcome where
  | rejected (msg : String)
  | saved (name : String)
deriving DecidableEq, Repr

/-- The Create-Profile save button handler (source lines 128-133): an
empty-after-strip name shows an error and writes nothing, otherwise
`save_profile` runs. -/
def handle_save_click (db : Store) (name : String) (age : Nat)
    (gender : String) (conditions : List (List Char)) (goal now : String) :
    Store × SubmitOutcome :=
  if pyStrip name = "" then (db, SubmitOutcome.rejected "Please enter a name.")
  else (save_profile db name age gender conditions goal now,
        SubmitOutcome.saved name)

/-- Store invariant maintained by `save_profile`: every stored id is below
the next id to be assigned, and ids are distinct. -/
def Store.WF (db : Store) : Prop :=
  (∀ p ∈ db.rows, p.id < db.nextId) ∧ (db.rows.map Profile.id).Nodup

instance (db : Store) : Decidable db.WF := by
  unfold Store.WF
  infer_instance

/-- The condition vocabulary offered by the UI multiselect (source lines
124-125). -/
def conditions_vocab : List (List Char) :=
  ["Thyroid".toList, "Sleep Apnea".toList, "Heart Risk".toList,
   "Obesity".toList, "Diabetes".toList, "None".toList]

/-- A concrete two-profile store, used to exercise the store theorems. -/
def demo_db : Store :=
  save_profile
    (save_profile init_db "Asha" 30 "Female" ["Thyroid".toList]
      "Weight Loss" "2026-10-12T00:00:00")
    "Ravi" 45 "Male" [] "Better Sleep" "2026-10-12T00:05:00"

/-! ## Helper lemmas about the engine -/

theorem diet_recs_eq_flags (c : List String) (g : String) :
    diet_recs c g
      = diet_recs_flags (c.contains "Thyroid") (c.contains "Sleep Apnea")
          (c.contains "Heart Risk" || c.contains "Cardiac History") g := rfl

theorem exercise_recs_eq_flags (c : List String) (g : String) :
    exercise_recs c g
      = exercise_recs_flags (c.contains "Thyroid") (c.contains "Sleep Apnea")
          (c.contains "Heart Risk" || c.contains "Cardiac History") g := rfl

theorem sleep_recs_eq_flags (c : List String) (g : String) :
    sleep_recs c g = sleep_recs_flags (c.contains "Sleep Apnea") g := rfl

theorem general_recs_eq_flags (c : List String) (g : String) :
    general_recs c g
      = general_recs_flags
          (c.contains "Heart Risk" || c.contains "Cardiac History") := rfl

theorem contains_congr {c1 c2 : List String}
    (h : ∀ s, s ∈ c1 ↔ s ∈ c2) (s : String) :
    c1.contains s = c2.contains s := by
  rw [Bool.eq_iff_iff]
  simp only [List.contains_iff_exists_mem_beq]
  constructor
  · rintro ⟨a, ha, hb⟩
    exact ⟨a, (h a).1 ha, hb⟩
  · rintro ⟨a, ha, hb⟩
    exact ⟨a, (h a).2 ha, hb⟩

theorem contains_cons_of_ne {c : List String} {s t : String} (h : t ≠ s) :
    (s :: c).contains t = c.contains t := by
  simp [List.contains_cons, beq_iff_eq, h]

theorem contains_cons_self (c : List String) (s : String) :
    (s :: c).contains s = true := by
  simp [List.contains_cons]

theorem generate_recommendations_congr {c1 c2 : List String}
    (h : ∀ s, s ∈ c1 ↔ s ∈ c2) (g : String) :
    generate_recommendations c1 g = generate_recommendations c2 g := by
  unfold generate_recommendations
  rw [diet_recs_eq_flags, diet_recs_eq_flags, exercise_recs_eq_flags,
    exercise_recs_eq_flags, sleep_recs_eq_flags, sleep_recs_eq_flags,
    general_recs_eq_flags, general_recs_eq_flags,
    contains_congr h "Thyroid", contains_congr h "Sleep Apnea",
    contains_congr h "Heart Risk", contains_congr h "Cardiac History"]

theorem ite_singleton_sublist (b : Prop) [Decidable b] (x : String) :
    List.Sublist (if b then [x] else []) [x] := by
  split
  · exact List.Sublist.refl _
  · exact List.nil_sublist _

theorem goal_chain_sublist (g : String) (x y z : String) :
    List.Sublist
      (if g = "Weight Loss" then [x]
       else if g = "Better Sleep" then [y]
       else if g = "Energy Boost" then [z]
       else []) [x, y, z] := by
  split
  · exact List.Sublist.cons₂ _ (List.nil_sublist _)
  · split
    · exact List.Sublist.cons _ (List.Sublist.cons₂ _ (List.nil_sublist _))
    · split
      · exact List.Sublist.cons _
          (List.Sublist.cons _ (List.Sublist.cons₂ _ (List.nil_sublist _)))
      · exact List.nil_sublist _

theorem diet_recs_canonical_order (c : List String) (g : String) :
    List.Sublist (diet_recs c g) [base_diet, thyroid_diet, apnea_diet,
      heart_diet, weightloss_diet, bettersleep_diet, energy_diet] := by
  show List.Sublist (diet_recs c g)
    (((([base_diet] ++ [thyroid_diet]) ++ [apnea_diet]) ++ [heart_diet])
      ++ [weightloss_diet, bettersleep_diet, energy_diet])
  unfold diet_recs
  exact List.Sublist.append
    (List.Sublist.append
      (List.Sublist.append
        (List.Sublist.append (List.Sublist.refl _)
          (ite_singleton_sublist _ _))
        (ite_singleton_sublist _ _))
      (ite_singleton_sublist _ _))
    (goal_chain_sublist g _ _ _)

theorem exercise_recs_canonical_order (c : List String) (g : String) :
    List.Sublist (exercise_recs c g) [base_exercise, thyroid_exercise,
      apnea_exercise, heart_exercise, weightloss_exercise,
      energy_exercise] := by
  show List.Sublist (exercise_recs c g)
    ((((([base_exercise] ++ [thyroid_exercise]) ++ [apnea_exercise])
        ++ [heart_exercise]) ++ [weightloss_exercise, energy_exercise]))
  unfold exercise_recs
  refine List.Sublist.append
    (List.Sublist.append
      (List.Sublist.append
        (List.Sublist.append (List.Sublist.refl _)
          (ite_singleton_sublist _ _))
        (ite_singleton_sublist _ _))
      (ite_singleton_sublist _ _)) ?_
  split
  · exact List.Sublist.cons₂ _ (List.nil_sublist _)
  · split
    · exact List.nil_sublist _
    · split
      · exact List.Sublist.cons _ (List.Sublist.cons₂ _ (List.nil_sublist _))
      · exact List.nil_sublist _

theorem sleep_recs_canonical_order (c : List String) (g : String) :
    List.Sublist (sleep_recs c g)
      [base_sleep, apnea_sleep, bettersleep_sleep] := by
  show List.Sublist (sleep_recs c g)
    (([base_sleep] ++ [apnea_sleep]) ++ [bettersleep_sleep])
  unfold sleep_recs
  refine List.Sublist.append
    (List.Sublist.append (List.Sublist.refl _) (ite_singleton_sublist _ _)) ?_
  split
  · exact List.nil_sublist _
  · split
    · exact List.Sublist.cons₂ _ (List.nil_sublist _)
    · exact List.nil_sublist _

theorem general_recs_canonical_order (c : List String) (g : String) :
    List.Sublist (general_recs c g) [base_general, heart_general] := by
  show List.Sublist (general_recs c g) ([base_general] ++ [heart_general])
  unfold general_recs
  exact List.Sublist.append (List.Sublist.refl _) (ite_singleton_sublist _ _)

/-! ## Claims about the recommendation engine -/

/-- C1: for the empty condition set and goal "Healthy Habits",
`generate_recommendations` returns a `RecommendationSet` whose four blocks
(diet, exercise, sleep, general) consist exactly of the four fixed
baseline lines, each rendered as the bullet delimiter followed by the
line, with `strip` applied, and nothing else. -/
theorem generate_empty_is_baseline_only :
    generate_recommendations [] "Healthy Habits" =
      { diet := bullet_sep ++ base_diet
        exercise := bullet_sep ++ base_exercise
        sleep := bullet_sep ++ base_sleep
        general := bullet_sep ++ base_general } ∧
    diet_recs [] "Healthy Habits" = [base_diet] ∧
    exercise_recs [] "Healthy Habits" = [base_exercise] ∧
    sleep_recs [] "Healthy Habits" = [base_sleep] ∧
    general_recs [] "Healthy Habits" = [base_general] := by
  decide

set_option maxRecDepth 8192 in
/-- C2: `generate_recommendations ["Thyroid"] "Weight Loss"` contains the
thyroid-specific diet and exercise lines and the weight-loss diet and
exercise lines, each exactly once in its category's line list, and the
joined blocks are exactly the corresponding bullet-joined strings. -/
theorem generate_thyroid_weightloss_lines :
    diet_recs ["Thyroid"] "Weight Loss"
      = [base_diet, thyroid_diet, weightloss_diet] ∧
    exercise_recs ["Thyroid"] "Weight Loss"
      = [base_exercise, thyroid_exercise, weightloss_exercise] ∧
    (diet_recs ["Thyroid"] "Weight Loss").count thyroid_diet = 1 ∧
    (diet_recs ["Thyroid"] "Weight Loss").count weightloss_diet = 1 ∧
    (exercise_recs ["Thyroid"] "Weight Loss").count thyroid_exercise = 1 ∧
    (exercise_recs ["Thyroid"] "Weight Loss").count weightloss_exercise = 1 ∧
    (generate_recommendations ["Thyroid"] "Weight Loss").diet
      = bullet_sep ++ base_diet ++ bullet_sep ++ thyroid_diet
          ++ bullet_sep ++ weightloss_diet ∧
    (generate_recommendations ["Thyroid"] "Weight Loss").exercise
      = bullet_sep ++ base_exercise ++ bullet_sep ++ thyroid_exercise
          ++ bullet_sep ++ weightloss_exercise := by
  decide

/-- C3: two condition lists with the same members produce byte-identical
output for every goal, and the emitted lines of each category always form
a sublist of the fixed canonical rule-table order (baseline, Thyroid,
Sleep Apnea, Heart Risk/Cardiac History, then goal lines). -/
theorem generate_order_insensitive (c1 c2 : List String) (goal : String)
    (h : ∀ s, s ∈ c1 ↔ s ∈ c2) :
    generate_recommendations c1 goal = generate_recommendations c2 goal ∧
    List.Sublist (diet_recs c1 goal) [base_diet, thyroid_diet, apnea_diet,
      heart_diet, weightloss_diet, bettersleep_diet, energy_diet] ∧
    List.Sublist (exercise_recs c1 goal) [base_exercise, thyroid_exercise,
      apnea_exercise, heart_exercise, weightloss_exercise,
      energy_exercise] ∧
    List.Sublist (sleep_recs c1 goal)
      [base_sleep, apnea_sleep, bettersleep_sleep] ∧
    List.Sublist (general_recs c1 goal) [base_general, heart_general] :=
  ⟨generate_recommendations_congr h goal,
   diet_recs_canonical_order c1 goal,
   exercise_recs_canonical_order c1 goal,
   sleep_recs_canonical_order c1 goal,
   general_recs_canonical_order c1 goal⟩

theorem generate_order_insensitive_witness :
    (∀ s : String, s ∈ ["Sleep Apnea", "Thyroid", "Thyroid"] ↔
        s ∈ ["Thyroid", "Sleep Apnea"]) ∧
    generate_recommendations ["Sleep Apnea", "Thyroid", "Thyroid"]
        "Better Sleep"
      = generate_recommendations ["Thyroid", "Sleep Apnea"] "Better Sleep" :=
  ⟨fun s => by
      simp only [List.mem_cons, List.not_mem_nil, or_false]
      tauto,
   (generate_order_insensitive ["Sleep Apnea", "Thyroid", "Thyroid"]
      ["Thyroid", "Sleep Apnea"] "Better Sleep"
      (fun s => by
        simp only [List.mem_cons, List.not_mem_nil, or_false]
        tauto)).1⟩

/-! ## Counting helper lemmas -/

theorem count_ite_ne (b : Prop) [Decidable b] {x a : String} (h : x ≠ a) :
    List.count a (if b then [x] else []) = 0 := by
  split
  · refine List.count_eq_zero.mpr ?_
    intro hm
    rw [List.mem_singleton] at hm
    exact h hm.symm
  · rfl

theorem count_diet_goal_chain_ne (g x y z a : String)
    (hx : x ≠ a) (hy : y ≠ a) (hz : z ≠ a) :
    List.count a
      (if g = "Weight Loss" then [x]
       else if g = "Better Sleep" then [y]
       else if g = "Energy Boost" then [z]
       else []) = 0 := by
  split
  · exact List.count_eq_zero.mpr
      (fun hm => hx (List.mem_singleton.mp hm).symm)
  · split
    · exact List.count_eq_zero.mpr
        (fun hm => hy (List.mem_singleton.mp hm).symm)
    · split
      · exact List.count_eq_zero.mpr
          (fun hm => hz (List.mem_singleton.mp hm).symm)
      · rfl

theorem count_exercise_goal_chain_ne (g x z a : String)
    (hx : x ≠ a) (hz : z ≠ a) :
    List.count a
      (if g = "Weight Loss" then [x]
       else if g = "Better Sleep" then []
       else if g = "Energy Boost" then [z]
       else []) = 0 := by
  split
  · exact List.count_eq_zero.mpr
      (fun hm => hx (List.mem_singleton.mp hm).symm)
  · split
    · rfl
    · split
      · exact List.count_eq_zero.mpr
          (fun hm => hz (List.mem_singleton.mp hm).symm)
      · rfl

theorem count_sleep_goal_chain_ne (g y a : String) (hy : y ≠ a) :
    List.count a
      (if g = "Weight Loss" then []
       else if g = "Better Sleep" then [y]
       else []) = 0 := by
  split
  · rfl
  · split
    · exact List.count_eq_zero.mpr
        (fun hm => hy (List.mem_singleton.mp hm).symm)
    · rfl

theorem count_heart_flags_diet (thy ap : Bool) (g : String) :
    (diet_recs_flags thy ap true g).count heart_diet = 1 := by
  unfold diet_recs_flags
  rw [List.count_append, List.count_append, List.count_append,
    List.count_append,
    count_ite_ne _ (show thyroid_diet ≠ heart_diet by decide),
    count_ite_ne _ (show apnea_diet ≠ heart_diet by decide),
    count_diet_goal_chain_ne g _ _ _ _ (by decide) (by decide) (by decide),
    if_pos rfl]
  decide

theorem count_heart_flags_exercise (thy ap : Bool) (g : String) :
    (exercise_recs_flags thy ap true g).count heart_exercise = 1 := by
  unfold exercise_recs_flags
  rw [List.count_append, List.count_append, List.count_append,
    List.count_append,
    count_ite_ne _ (show thyroid_exercise ≠ heart_exercise by decide),
    count_ite_ne _ (show apnea_exercise ≠ heart_exercise by decide),
    count_exercise_goal_chain_ne g _ _ _ (by decide) (by decide),
    if_pos rfl]
  decide

theorem count_base_diet (c : List String) (g : String) :
    (diet_recs c g).count base_diet = 1 := by
  rw [diet_recs_eq_flags]
  unfold diet_recs_flags
  rw [List.count_append, List.count_append, List.count_append,
    List.count_append,
    count_ite_ne _ (show thyroid_diet ≠ base_diet by decide),
    count_ite_ne _ (show apnea_diet ≠ base_diet by decide),
    count_ite_ne _ (show heart_diet ≠ base_diet by decide),
    count_diet_goal_chain_ne g _ _ _ _ (by decide) (by decide) (by decide)]
  decide

theorem count_base_exercise (c : List String) (g : String) :
    (exercise_recs c g).count base_exercise = 1 := by
  rw [exercise_recs_eq_flags]
  unfold exercise_recs_flags
  rw [List.count_append, List.count_append, List.count_append,
    List.count_append,
    count_ite_ne _ (show thyroid_exercise ≠ base_exercise by decide),
    count_ite_ne _ (show apnea_exercise ≠ base_exercise by decide),
    count_ite_ne _ (show heart_exercise ≠ base_exercise by decide),
    count_exercise_goal_chain_ne g _ _ _ (by decide) (by decide)]
  decide

theorem count_base_sleep (c : List String) (g : String) :
    (sleep_recs c g).count base_sleep = 1 := by
  rw [sleep_recs_eq_flags]
  unfold sleep_recs_flags
  rw [List.count_append, List.count_append,
    count_ite_ne _ (show apnea_sleep ≠ base_sleep by decide),
    count_sleep_goal_chain_ne g _ _ (by decide)]
  decide

theorem count_base_general (c : List String) (g : String) :
    (general_recs c g).count base_general = 1 := by
  rw [general_recs_eq_flags]
  unfold general_recs_flags
  rw [List.count_append,
    count_ite_ne _ (show heart_general ≠ base_general by decide)]
  decide

/-! ## Claims C4, C9, C10 -/

/-- C4: a condition string outside the rule table adds no lines (prepending
it leaves the output unchanged), and a goal outside the three recognized
goal values yields the same output as the rule-less goal
"Healthy Habits". -/
theorem unknown_inputs_ignored (c : List String) (g s : String) :
    (s ∉ (["Thyroid", "Sleep Apnea", "Heart Risk",
           "Cardiac History"] : List String) →
      generate_recommendations (s :: c) g = generate_recommendations c g) ∧
    (g ∉ (["Weight Loss", "Better Sleep", "Energy Boost"] : List String) →
      generate_recommendations c g
        = generate_recommendations c "Healthy Habits") := by
  constructor
  · intro hs
    have h1 : "Thyroid" ≠ s := fun e => hs (by rw [← e]; simp)
    have h2 : "Sleep Apnea" ≠ s := fun e => hs (by rw [← e]; simp)
    have h3 : "Heart Risk" ≠ s := fun e => hs (by rw [← e]; simp)
    have h4 : "Cardiac History" ≠ s := fun e => hs (by rw [← e]; simp)
    unfold generate_recommendations
    rw [diet_recs_eq_flags, diet_recs_eq_flags, exercise_recs_eq_flags,
      exercise_recs_eq_flags, sleep_recs_eq_flags, sleep_recs_eq_flags,
      general_recs_eq_flags, general_recs_eq_flags,
      contains_cons_of_ne h1, contains_cons_of_ne h2,
      contains_cons_of_ne h3, contains_cons_of_ne h4]
  · intro hg
    have h1 : ¬(g = "Weight Loss") := fun e => hg (by rw [e]; simp)
    have h2 : ¬(g = "Better Sleep") := fun e => hg (by rw [e]; simp)
    have h3 : ¬(g = "Energy Boost") := fun e => hg (by rw [e]; simp)
    unfold generate_recommendations diet_recs exercise_recs sleep_recs
      general_recs
    simp only [if_neg h1, if_neg h2, if_neg h3,
      if_neg (show ¬("Healthy Habits" = "Weight Loss") by decide),
      if_neg (show ¬("Healthy Habits" = "Better Sleep") by decide),
      if_neg (show ¬("Healthy Habits" = "Energy Boost") by decide)]

theorem unknown_inputs_ignored_witness :
    ("Flu" ∉ (["Thyroid", "Sleep Apnea", "Heart Risk",
               "Cardiac History"] : List String)) ∧
    generate_recommendations ["Flu", "Thyroid"] "Weight Loss"
      = generate_recommendations ["Thyroid"] "Weight Loss" ∧
    generate_recommendations ["Thyroid"] "Muscle Gain"
      = generate_recommendations ["Thyroid"] "Healthy Habits" :=
  ⟨by decide,
   (unknown_inputs_ignored ["Thyroid"] "Weight Loss" "Flu").1 (by decide),
   (unknown_inputs_ignored ["Thyroid"] "Muscle Gain" "Flu").2 (by decide)⟩

/-- C9: for every goal and base condition list, the output is identical
whether the conditions additionally contain "Heart Risk",
"Cardiac History", or both; whenever the heart disjunction holds, the
heart-specific diet, exercise and general lines each occur exactly once in
their category's line list. -/
theorem heart_tags_interchangeable (base : List String) (g : String) :
    generate_recommendations ("Heart Risk" :: base) g
      = generate_recommendations ("Cardiac History" :: base) g ∧
    generate_recommendations ("Heart Risk" :: base) g
      = generate_recommendations
          ("Heart Risk" :: "Cardiac History" :: base) g ∧
    (∀ c : List String,
      (c.contains "Heart Risk" || c.contains "Cardiac History") = true →
      (diet_recs c g).count heart_diet = 1 ∧
      (exercise_recs c g).count heart_exercise = 1 ∧
      (general_recs c g).count heart_general = 1) := by
  have tHR : ("Thyroid" : String) ≠ "Heart Risk" := by decide
  have tCH : ("Thyroid" : String) ≠ "Cardiac History" := by decide
  have aHR : ("Sleep Apnea" : String) ≠ "Heart Risk" := by decide
  have aCH : ("Sleep Apnea" : String) ≠ "Cardiac History" := by decide
  have hrCH : ("Heart Risk" : String) ≠ "Cardiac History" := by decide
  have chHR : ("Cardiac History" : String) ≠ "Heart Risk" := by decide
  refine ⟨?_, ?_, ?_⟩
  · unfold generate_recommendations
    simp only [diet_recs_eq_flags, exercise_recs_eq_flags,
      sleep_recs_eq_flags, general_recs_eq_flags,
      contains_cons_of_ne tHR, contains_cons_of_ne tCH,
      contains_cons_of_ne aHR, contains_cons_of_ne aCH,
      contains_cons_of_ne hrCH, contains_cons_of_ne chHR,
      contains_cons_self, Bool.true_or, Bool.or_true]
  · unfold generate_recommendations
    simp only [diet_recs_eq_flags, exercise_recs_eq_flags,
      sleep_recs_eq_flags, general_recs_eq_flags,
      contains_cons_of_ne tHR, contains_cons_of_ne tCH,
      contains_cons_of_ne aHR, contains_cons_of_ne aCH,
      contains_cons_of_ne hrCH, contains_cons_of_ne chHR,
      contains_cons_self, Bool.true_or, Bool.or_true]
  · intro c hc
    rw [diet_recs_eq_flags, exercise_recs_eq_flags, general_recs_eq_flags,
      hc]
    exact ⟨count_heart_flags_diet _ _ _, count_heart_flags_exercise _ _ _,
      by decide⟩

theorem heart_tags_interchangeable_witness :
    generate_recommendations ["Heart Risk"] "Healthy Habits"
      = generate_recommendations ["Cardiac History"] "Healthy Habits" ∧
    ((["Heart Risk"] : List String).contains "Heart Risk"
      || (["Heart Risk"] : List String).contains "Cardiac History") = true ∧
    (diet_recs ["Heart Risk"] "Healthy Habits").count heart_diet = 1 :=
  ⟨(heart_tags_interchangeable [] "Healthy Habits").1,
   by decide,
   ((heart_tags_interchangeable [] "Healthy Habits").2.2 ["Heart Risk"]
      (by decide)).1⟩

/-- C10: for every condition list and goal, each category's line list
starts with that category's fixed baseline line, and the baseline line
occurs exactly once — no input removes or displaces it. -/
theorem baseline_always_first (c : List String) (g : String) :
    (diet_recs c g).head? = some base_diet ∧
    (exercise_recs c g).head? = some base_exercise ∧
    (sleep_recs c g).head? = some base_sleep ∧
    (general_recs c g).head? = some base_general ∧
    (diet_recs c g).count base_diet = 1 ∧
    (exercise_recs c g).count base_exercise = 1 ∧
    (sleep_recs c g).count base_sleep = 1 ∧
    (general_recs c g).count base_general = 1 :=
  ⟨rfl, rfl, rfl, rfl, count_base_diet c g, count_base_exercise c g,
   count_base_sleep c g, count_base_general c g⟩

/-! ## Claim C7: translation fallback -/

/-- C7: when the translation capability reports failure (the call raises)
or the capability is unavailable (the import failed), each of the four
displayed category texts is exactly the original English text followed by
the corresponding fixed explanatory suffix; the fallback is a value, never
an error. -/
theorem translation_fallback (recs : RecommendationSet)
    (tr : String → Option String) (hfail : ∀ t, tr t = none) :
    hindi_view (some tr) recs =
      { diet := recs.diet ++ translation_failed_note
        exercise := recs.exercise ++ translation_failed_note
        sleep := recs.sleep ++ translation_failed_note
        general := recs.general ++ translation_failed_note } ∧
    hindi_view none recs =
      { diet := recs.diet ++ translation_missing_note
        exercise := recs.exercise ++ translation_missing_note
        sleep := recs.sleep ++ translation_missing_note
        general := recs.general ++ translation_missing_note } := by
  constructor
  · simp only [hindi_view, translate_text, hfail]
  · rfl

theorem translation_fallback_witness :
    hindi_view (some fun _ => none)
        (generate_recommendations [] "Healthy Habits")
      = { diet := (generate_recommendations [] "Healthy Habits").diet
            ++ translation_failed_note
          exercise := (generate_recommendations [] "Healthy Habits").exercise
            ++ translation_failed_note
          sleep := (generate_recommendations [] "Healthy Habits").sleep
            ++ translation_failed_note
          general := (generate_recommendations [] "Healthy Habits").general
            ++ translation_failed_note } ∧
    hindi_view none (generate_recommendations [] "Healthy Habits")
      = { diet := (generate_recommendations [] "Healthy Habits").diet
            ++ translation_missing_note
          exercise := (generate_recommendations [] "Healthy Habits").exercise
            ++ translation_missing_note
          sleep := (generate_recommendations [] "Healthy Habits").sleep
            ++ translation_missing_note
          general := (generate_recommendations [] "Healthy Habits").general
            ++ translation_missing_note } :=
  translation_fallback (generate_recommendations [] "Healthy Habits")
    (fun _ => none) (fun _ => rfl)

/-! ## Join/split round-trip lemmas for the conditions column -/

theorem pySplit_of_not_mem {sep : Char} :
    ∀ {x : List Char}, sep ∉ x → pySplit sep x = [x]
  | [], _ => rfl
  | c :: cs, h => by
    have hc : c ≠ sep := fun e => h (by rw [← e]; exact List.mem_cons_self c cs)
    have ih := pySplit_of_not_mem (x := cs)
      (fun hm => h (List.mem_cons_of_mem c hm))
    unfold pySplit
    rw [if_neg hc, ih]

theorem pySplit_append {sep : Char} :
    ∀ {x : List Char} (t : List Char), sep ∉ x →
      pySplit sep (x ++ sep :: t) = x :: pySplit sep t
  | [], t, _ => by
    show pySplit sep (sep :: t) = [] :: pySplit sep t
    conv_lhs => rw [pySplit]
    rw [if_pos rfl]
  | c :: cs, t, h => by
    have hc : c ≠ sep := fun e => h (by rw [← e]; exact List.mem_cons_self c _)
    have ih := pySplit_append (x := cs) t
      (fun hm => h (List.mem_cons_of_mem c hm))
    show pySplit sep (c :: (cs ++ sep :: t)) = (c :: cs) :: pySplit sep t
    conv_lhs => rw [pySplit]
    rw [if_neg hc, ih]

theorem pySplit_pyJoin {sep : Char} :
    ∀ {l : List (List Char)}, (∀ c ∈ l, sep ∉ c) → l ≠ [] →
      pySplit sep (pyJoin [sep] l) = l
  | [], _, hne => absurd rfl hne
  | [x], h, _ => by
    show pySplit sep x = [x]
    exact pySplit_of_not_mem (h x (List.mem_cons_self x _))
  | x :: y :: t, h, _ => by
    have ih := pySplit_pyJoin (l := y :: t)
      (fun c hc => h c (List.mem_cons_of_mem x hc)) (by simp)
    have hj : pyJoin [sep] (x :: y :: t)
        = x ++ sep :: pyJoin [sep] (y :: t) := by
      show x ++ [sep] ++ pyJoin [sep] (y :: t) = _
      rw [List.append_assoc]
      rfl
    rw [hj, pySplit_append _ (h x (List.mem_cons_self x _)), ih]

theorem pyJoin_ne_nil {sep : Char} {x : List Char} (hx : x ≠ [])
    (xs : List (List Char)) : pyJoin [sep] (x :: xs) ≠ [] := by
  cases xs with
  | nil => exact hx
  | cons y t =>
    show x ++ [sep] ++ pyJoin [sep] (y :: t) ≠ []
    cases x with
    | nil => exact absurd rfl hx
    | cons a b => simp

/-- Joining a list of comma-free, non-empty chunks and reading it back
through the View-Profiles read path recovers the original list. -/
theorem read_join_roundtrip (l : List (List Char))
    (h : ∀ c ∈ l, ',' ∉ c ∧ c ≠ []) :
    read_conditions (pyJoin [','] l) = l := by
  cases l with
  | nil => rfl
  | cons x xs =>
    have hx := h x (List.mem_cons_self x xs)
    unfold read_conditions
    rw [if_neg (pyJoin_ne_nil hx.2 xs)]
    exact pySplit_pyJoin (fun c hc => (h c hc).1) (by simp)

theorem vocab_words_ok : ∀ c ∈ conditions_vocab, ',' ∉ c ∧ c ≠ [] := by
  decide

/-! ## Claims C5, C6, C8: the profile store -/

/-- C5: the save button rejects an empty-after-strip name with the error
message and leaves the store untouched; for a non-blank name it performs
exactly one insert, whose record carries the server-assigned timestamp,
growing the store by one row. -/
theorem save_click_validation (db : Store) (name : String) (age : Nat)
    (gender : String) (conditions : List (List Char)) (goal now : String) :
    (pyStrip name = "" →
      handle_save_click db name age gender conditions goal now
        = (db, SubmitOutcome.rejected "Please enter a name.")) ∧
    (pyStrip name ≠ "" →
      handle_save_click db name age gender conditions goal now
        = (save_profile db name age gender conditions goal now,
           SubmitOutcome.saved name) ∧
      (handle_save_click db name age gender conditions goal now).1.rows
        = new_row db name age gender conditions goal now :: db.rows ∧
      (new_row db name age gender conditions goal now).created_at = now ∧
      (new_row db name age gender conditions goal now).id = db.nextId ∧
      (handle_save_click db name age gender conditions
          goal now).1.rows.length
        = db.rows.length + 1) := by
  constructor
  · intro h
    unfold handle_save_click
    rw [if_pos h]
  · intro h
    unfold handle_save_click
    rw [if_neg h]
    exact ⟨rfl, rfl, rfl, rfl, rfl⟩

theorem save_click_validation_witness :
    handle_save_click init_db "   " 30 "Female" [] "Weight Loss" "t0"
      = (init_db, SubmitOutcome.rejected "Please enter a name.") ∧
    (handle_save_click init_db "Asha" 30 "Female" [] "Weight Loss"
        "t0").1.rows.length
      = init_db.rows.length + 1 :=
  ⟨(save_click_validation init_db "   " 30 "Female" [] "Weight Loss"
      "t0").1 (by decide),
   ((save_click_validation init_db "Asha" 30 "Female" [] "Weight Loss"
      "t0").2 (by decide)).2.2.2.2⟩

/-- C6: saving a valid profile and looking its id up returns a record
whose stored conditions string, re-split by the read path, equals the
originally supplied conditions list. -/
theorem save_then_find_roundtrip (db : Store) (name : String) (age : Nat)
    (gender : String) (conditions : List (List Char)) (goal now : String)
    (hwf : db.WF) (hv : ∀ c ∈ conditions, c ∈ conditions_vocab) :
    ∃ p, find_by_id (save_profile db name age gender conditions goal now)
          db.nextId = some p ∧
         read_conditions p.conditions = conditions := by
  have hmem : new_row db name age gender conditions goal now
      ∈ fetch_profiles (save_profile db name age gender conditions
          goal now) :=
    (List.mergeSort_perm _ _).mem_iff.mpr (List.mem_cons_self _ _)
  have hsome : ((fetch_profiles (save_profile db name age gender conditions
      goal now)).find? (fun p => p.id == db.nextId)).isSome :=
    List.find?_isSome.mpr ⟨_, hmem, by simp [new_row]⟩
  obtain ⟨a, ha⟩ := Option.isSome_iff_exists.mp hsome
  have haid : a.id = db.nextId := by
    have h2 := List.find?_some ha
    simpa using h2
  have hamem : a ∈ (save_profile db name age gender conditions
      goal now).rows :=
    (List.mergeSort_perm _ _).mem_iff.mp (List.mem_of_find?_eq_some ha)
  rcases List.mem_cons.mp hamem with hanew | haold
  · refine ⟨a, ha, ?_⟩
    rw [hanew]
    exact read_join_roundtrip conditions
      (fun c hc => vocab_words_ok c (hv c hc))
  · exact absurd haid (Nat.ne_of_lt (hwf.1 a haold))

theorem save_then_find_roundtrip_witness :
    Store.WF init_db ∧
    (∀ c ∈ (["Thyroid".toList, "Sleep Apnea".toList] : List (List Char)),
      c ∈ conditions_vocab) ∧
    ∃ p, find_by_id (save_profile init_db "Asha" 30 "Female"
            ["Thyroid".toList, "Sleep Apnea".toList] "Weight Loss"
            "2026-10-12T00:00:00") 1 = some p ∧
         read_conditions p.conditions
          = ["Thyroid".toList, "Sleep Apnea".toList] :=
  ⟨by decide, by decide,
   save_then_find_roundtrip init_db "Asha" 30 "Female"
     ["Thyroid".toList, "Sleep Apnea".toList] "Weight Loss"
     "2026-10-12T00:00:00" (by decide) (by decide)⟩

/-- C8: `fetch_profiles` returns exactly the stored profiles (a
permutation of the store's rows), sorted by descending id — strictly
descending under the store invariant, so most recently created first —
and the empty sequence when the store is empty. -/
theorem fetch_profiles_spec (db : Store) (hwf : db.WF) :
    (fetch_profiles db).Perm db.rows ∧
    List.Pairwise (fun a b : Profile => b.id ≤ a.id) (fetch_profiles db) ∧
    List.Pairwise (fun a b : Profile => b.id < a.id) (fetch_profiles db) ∧
    (db.rows = [] → fetch_profiles db = []) := by
  have hperm : (fetch_profiles db).Perm db.rows := List.mergeSort_perm _ _
  have hsorted : List.Pairwise
      (fun a b : Profile => (decide (b.id ≤ a.id)) = true)
      (fetch_profiles db) :=
    List.sorted_mergeSort
      (fun a b c h1 h2 => by
        simp only [decide_eq_true_eq] at *
        omega)
      (fun a b => by
        simp only [Bool.or_eq_true, decide_eq_true_eq]
        omega)
      db.rows
  have hle : List.Pairwise (fun a b : Profile => b.id ≤ a.id)
      (fetch_profiles db) :=
    hsorted.imp (fun h => by simpa using h)
  have hnd : ((fetch_profiles db).map Profile.id).Nodup :=
    (hperm.map Profile.id).symm.nodup hwf.2
  have hne : List.Pairwise (fun a b : Profile => a.id ≠ b.id)
      (fetch_profiles db) := List.pairwise_map.mp hnd
  refine ⟨hperm, hle, ?_, ?_⟩
  · exact (hle.and hne).imp
      (fun h => Nat.lt_of_le_of_ne h.1 (Ne.symm h.2))
  · intro h
    unfold fetch_profiles
    rw [h]
    exact List.mergeSort_nil

theorem fetch_profiles_spec_witness :
    Store.WF demo_db ∧
    (fetch_profiles demo_db).Perm demo_db.rows ∧
    List.Pairwise (fun a b : Profile => b.id < a.id)
      (fetch_profiles demo_db) :=
  ⟨by decide, (fetch_profiles_spec demo_db (by decide)).1,
   (fetch_profiles_spec demo_db (by decide)).2.2.1⟩

end HealthyHabits
